import Mathlib

/-!
Shallow embedding of the FastAPI application in `src/main.py`: the Pydantic
request/response schemas (`Item`, `Offer`, `User`, `Author`, `Book`), the
framework's decode-then-dispatch validation step for each endpoint the claims
touch, and the handler bodies, translated line by line from the source.

JSON values are modelled by the inductive `Json`; Python floats are modelled
as rationals (the program only compares them with 0 and echoes them back);
Python truthiness of an optional string (`if q:`, `if not file.filename:`) is
modelled by `pyTruthy`.
-/

/-- A JSON value as seen by the framework: objects keep their field order. -/
inductive Json where
  | null
  | bool (b : Bool)
  | int (n : Int)
  | num (x : Rat)
  | str (s : String)
  | arr (elems : List Json)
  | obj (fields : List (String × Json))

/-- First value bound to `key` in an object's field list. -/
def lookupField : List (String × Json) → String → Option Json
  | [], _ => none
  | (k, v) :: rest, key => if k = key then some v else lookupField rest key

/-- Field lookup on a JSON value; `none` on non-objects. -/
def Json.lookup : Json → String → Option Json
  | Json.obj fields, key => lookupField fields key
  | _, _ => none

/-- Outcome of one HTTP request, after the framework's decode step.
`validationFailure` is the structured 4xx produced before the handler runs;
`httpException` is a handler-raised `HTTPException`; `unhandledError` is a
Python exception escaping the handler (surfaced as a 500 server error). -/
inductive HttpResult where
  | validationFailure (errs : List String)
  | response (status : Nat) (body : Json)
  | httpException (status : Nat) (detail : String)
  | unhandledError (msg : String)

/-- `fastapi.UploadFile`: only its `filename` attribute is ever read. -/
structure UploadFile where
  filename : Option String

/-- Python truthiness of an optional string: `None` and `""` are falsy. -/
def pyTruthy : Option String → Bool
  | none => false
  | some s => decide (0 < s.length)

/-- Pydantic model `Item` (src/main.py lines 8-12). -/
structure Item where
  name : String
  description : Option String
  price : Rat
  tax : Option Rat

/-- Pydantic model `Offer` (src/main.py lines 14-17). -/
structure Offer where
  name : String
  discount : Rat
  items : List Item

/-- Pydantic model `User` (src/main.py lines 19-22); note `full_name` is
annotated `str | None` with no default, hence required-but-nullable. -/
structure User where
  username : String
  email : String
  full_name : Option String

/-- Pydantic model `Author` (src/main.py lines 24-26). -/
structure Author where
  name : String
  age : Int

/-- Pydantic model `Book` (src/main.py lines 28-31). -/
structure Book where
  title : String
  author : Author
  summary : Option String

/-- Serialize an optional string; `None` becomes JSON null. -/
def encodeOptStr : Option String → Json
  | none => Json.null
  | some s => Json.str s

/-- Serialize an optional number; `None` becomes JSON null. -/
def encodeOptNum : Option Rat → Json
  | none => Json.null
  | some x => Json.num x

/-- `Item.model_dump()`: the field list of the serialized item. -/
def Item.model_dump (it : Item) : List (String × Json) :=
  [("name", Json.str it.name),
   ("description", encodeOptStr it.description),
   ("price", Json.num it.price),
   ("tax", encodeOptNum it.tax)]

/-- JSON serialization of an `Item`. -/
def Item.encode (it : Item) : Json :=
  Json.obj it.model_dump

/-- JSON serialization of an `Offer`. -/
def Offer.encode (o : Offer) : Json :=
  Json.obj
    [("name", Json.str o.name),
     ("discount", Json.num o.discount),
     ("items", Json.arr (o.items.map Item.encode))]

/-- JSON serialization of a `User`. -/
def User.encode (u : User) : Json :=
  Json.obj
    [("username", Json.str u.username),
     ("email", Json.str u.email),
     ("full_name", encodeOptStr u.full_name)]

/-- JSON serialization of an `Author`. -/
def Author.encode (a : Author) : Json :=
  Json.obj
    [("name", Json.str a.name),
     ("age", Json.int a.age)]

/-- JSON serialization of a `Book`. -/
def Book.encode (b : Book) : Json :=
  Json.obj
    [("title", Json.str b.title),
     ("author", b.author.encode),
     ("summary", encodeOptStr b.summary)]

/-- Pydantic decode of a `str` field value. -/
def decodeStr : Json → Except String String
  | Json.str s => Except.ok s
  | _ => Except.error "Input should be a valid string"

/-- Pydantic decode of a `float` field value (accepts an integer too). -/
def decodeFloat : Json → Except String Rat
  | Json.num x => Except.ok x
  | Json.int n => Except.ok (n : Rat)
  | _ => Except.error "Input should be a valid number"

/-- Pydantic decode of an `int` field value. -/
def decodeInt : Json → Except String Int
  | Json.int n => Except.ok n
  | _ => Except.error "Input should be a valid integer"

/-- Decode a required field: absent is a validation error. -/
def decodeReqField (fields : List (String × Json)) (key : String)
    (f : Json → Except String α) : Except String α :=
  match lookupField fields key with
  | none => Except.error (key ++ ": Field required")
  | some j => f j

/-- Decode an optional field with default `None`: absent or null is `none`. -/
def decodeOptField (fields : List (String × Json)) (key : String)
    (f : Json → Except String α) : Except String (Option α) :=
  match lookupField fields key with
  | none => Except.ok none
  | some Json.null => Except.ok none
  | some j =>
    match f j with
    | Except.ok a => Except.ok (some a)
    | Except.error e => Except.error e

/-- Decode a required-but-nullable field (annotation `T | None`, no default,
Pydantic v2): absent is a validation error, null decodes to `none`. -/
def decodeReqNullable (fields : List (String × Json)) (key : String)
    (f : Json → Except String α) : Except String (Option α) :=
  match lookupField fields key with
  | none => Except.error (key ++ ": Field required")
  | some Json.null => Except.ok none
  | some j =>
    match f j with
    | Except.ok a => Except.ok (some a)
    | Except.error e => Except.error e

/-- Pydantic validation of a JSON value against the `Item` schema. -/
def decodeItem : Json → Except String Item
  | Json.obj fields => do
    let name ← decodeReqField fields "name" decodeStr
    let description ← decodeOptField fields "description" decodeStr
    let price ← decodeReqField fields "price" decodeFloat
    let tax ← decodeOptField fields "tax" decodeFloat
    Except.ok { name := name, description := description, price := price, tax := tax }
  | _ => Except.error "Input should be a valid dictionary"

/-- Decode each element of a JSON array against the `Item` schema. -/
def decodeListItems : List Json → Except String (List Item)
  | [] => Except.ok []
  | j :: rest =>
    match decodeItem j, decodeListItems rest with
    | Except.ok a, Except.ok as => Except.ok (a :: as)
    | Except.error e, _ => Except.error e
    | _, Except.error e => Except.error e

/-- Pydantic decode of a `List[Item]` field value. -/
def decodeItems : Json → Except String (List Item)
  | Json.arr elems => decodeListItems elems
  | _ => Except.error "Input should be a valid list"

/-- Pydantic validation of a JSON value against the `Offer` schema. -/
def decodeOffer : Json → Except String Offer
  | Json.obj fields => do
    let name ← decodeReqField fields "name" decodeStr
    let discount ← decodeReqField fields "discount" decodeFloat
    let items ← decodeReqField fields "items" decodeItems
    Except.ok { name := name, discount := discount, items := items }
  | _ => Except.error "Input should be a valid dictionary"

/-- Pydantic validation of a JSON value against the `User` schema:
`full_name` must be present (it may be null). -/
def decodeUser : Json → Except String User
  | Json.obj fields => do
    let username ← decodeReqField fields "username" decodeStr
    let email ← decodeReqField fields "email" decodeStr
    let full_name ← decodeReqNullable fields "full_name" decodeStr
    Except.ok { username := username, email := email, full_name := full_name }
  | _ => Except.error "Input should be a valid dictionary"

/-- Pydantic validation of a JSON value against the `Author` schema. -/
def decodeAuthor : Json → Except String Author
  | Json.obj fields => do
    let name ← decodeReqField fields "name" decodeStr
    let age ← decodeReqField fields "age" decodeInt
    Except.ok { name := name, age := age }
  | _ => Except.error "Input should be a valid dictionary"

/-- Pydantic validation of a JSON value against the `Book` schema. -/
def decodeBook : Json → Except String Book
  | Json.obj fields => do
    let title ← decodeReqField fields "title" decodeStr
    let author ← decodeReqField fields "author" decodeAuthor
    let summary ← decodeOptField fields "summary" decodeStr
    Except.ok { title := title, author := author, summary := summary }
  | _ => Except.error "Input should be a valid dictionary"

/-- Path constraint on `item_id`: `Path(..., ge=1, le=1000)`. -/
def validItemId (item_id : Int) : Bool :=
  1 ≤ item_id && item_id ≤ 1000

/-- Query constraint on `q`: `Query(None, min_length=3, max_length=50)`;
validated only when provided. -/
def validQ : Option String → Bool
  | none => true
  | some s => 3 ≤ s.length && s.length ≤ 50

/-- Query constraint on `sort_order`: pattern `^(asc|desc)$`. -/
def validSortOrder (s : String) : Bool :=
  s == "asc" || s == "desc"

/-- Handler body of `read_item` (src/main.py lines 45-50): builds the item
record, echoing `q` in the description when `q` is truthy. -/
def read_item (item_id : Int) (q : Option String) (sort_order : String) : Json :=
  Json.obj
    [("item_id", Json.int item_id),
     ("description",
       if pyTruthy q then
         Json.str ("This is a sample item that matches the query " ++ q.getD "")
       else
         Json.str "This is a sample item."),
     ("sort_order", Json.str sort_order)]

/-- Parameters of `GET /items/\x7bitem_id\x7d` that fail their declared
constraint, in declaration order. -/
def read_item_errors (item_id : Int) (q : Option String) (sort_order : Option String) : List String :=
  (if validItemId item_id then [] else ["item_id"]) ++
  (if validQ q then [] else ["q"]) ++
  (if validSortOrder (sort_order.getD "asc") then [] else ["sort_order"])

/-- `GET /items/\x7bitem_id\x7d`: decode-then-dispatch. `sort_order` is the raw
query value, defaulted to "asc" when absent. -/
def read_item_endpoint (item_id : Int) (q : Option String) (sort_order : Option String) : HttpResult :=
  let errs := read_item_errors item_id q sort_order
  if errs = [] then
    HttpResult.response 200 (read_item item_id q (sort_order.getD "asc"))
  else
    HttpResult.validationFailure errs

/-- Handler body of `update_item` (src/main.py lines 57-61): `item` has
default `None`, so the handler may receive no item, in which case
`item.model_dump()` raises `AttributeError`. -/
def update_item (item_id : Int) (item : Option Item) (q : Option String) : Except String Json :=
  match item with
  | none => Except.error "AttributeError: NoneType object has no attribute model_dump"
  | some it =>
    let base := ("item_id", Json.int item_id) :: it.model_dump
    Except.ok (Json.obj (if pyTruthy q then base ++ [("q", Json.str (q.getD ""))] else base))

/-- Parameters of `PUT /items/\x7bitem_id\x7d` that fail their declared
constraint. The body is optional (`item: Item = None`): a missing body is
not an error; a present body must conform to the `Item` schema. -/
def update_item_errors (item_id : Int) (body : Option Json) (q : Option String) : List String :=
  (if validItemId item_id then [] else ["item_id"]) ++
  (match body with
   | none => []
   | some j =>
     match decodeItem j with
     | Except.ok _ => []
     | Except.error e => [e]) ++
  (if validQ q then [] else ["q"])

/-- The decoded `item` parameter passed to the handler: `none` when the body
is absent. -/
def decodedItem : Option Json → Option Item
  | none => none
  | some j =>
    match decodeItem j with
    | Except.ok it => some it
    | Except.error _ => none

/-- `PUT /items/\x7bitem_id\x7d`: decode-then-dispatch; a handler exception
becomes a 500 server error. -/
def update_item_endpoint (item_id : Int) (body : Option Json) (q : Option String) : HttpResult :=
  let errs := update_item_errors item_id body q
  if errs = [] then
    match update_item item_id (decodedItem body) q with
    | Except.ok j => HttpResult.response 200 j
    | Except.error e => HttpResult.unhandledError e
  else
    HttpResult.validationFailure errs

/-- Handler body of `create_offer` (src/main.py line 91): note the response
key is `offer_name`, not `name`. -/
def create_offer (o : Offer) : Json :=
  Json.obj
    [("offer_name", Json.str o.name),
     ("discount", Json.num o.discount),
     ("items", Json.arr (o.items.map Item.encode))]

/-- `POST /offers/`: the body is required and validated against `Offer`. -/
def create_offer_endpoint : Option Json → HttpResult
  | none => HttpResult.validationFailure ["offer: Field required"]
  | some j =>
    match decodeOffer j with
    | Except.error e => HttpResult.validationFailure [e]
    | Except.ok o => HttpResult.response 200 (create_offer o)

/-- Handler body of `create_user` (src/main.py line 96). -/
def create_user (u : User) : Json :=
  Json.obj
    [("username", Json.str u.username),
     ("email", Json.str u.email),
     ("full_name", encodeOptStr u.full_name)]

/-- `POST /users/`: the body is required and validated against `User`. -/
def create_user_endpoint : Option Json → HttpResult
  | none => HttpResult.validationFailure ["user: Field required"]
  | some j =>
    match decodeUser j with
    | Except.error e => HttpResult.validationFailure [e]
    | Except.ok u => HttpResult.response 200 (create_user u)

/-- Handler body of `create_item_with_form_and_file` (src/main.py lines
145-157), over the decoded form fields and file: the price check comes
first, then the filename truthiness check, then the echo response. -/
def create_item_with_form_and_file (name : String) (description : Option String)
    (price : Rat) (tax : Option Rat) (file : UploadFile) : HttpResult :=
  if price < 0 then
    HttpResult.httpException 400 "Price cannot be negative"
  else if pyTruthy file.filename = false then
    HttpResult.httpException 400 "No file uploaded"
  else
    HttpResult.response 200 (Json.obj
      [("name", Json.str name),
       ("description", encodeOptStr description),
       ("price", Json.num price),
       ("tax", encodeOptNum tax),
       ("filename", Json.str (file.filename.getD "")),
       ("message", Json.str "This is an item created using form data and a file.")])

/-- The fixed list returned by `get_books` (src/main.py lines 162-165). -/
def get_books : List Book :=
  [{ title := "Book 1",
     author := { name := "Author 1", age := 45 },
     summary := some "A great book about..." },
   { title := "Book 2",
     author := { name := "Author 2", age := 38 },
     summary := some "An interesting journey of..." }]

/-- `GET /books/`: no parameters; the handler list is serialized through the
`List[Book]` response model. -/
def get_books_endpoint : HttpResult :=
  HttpResult.response 200 (Json.arr (get_books.map Book.encode))

/-- Handler body of `create_book` (src/main.py line 175). -/
def create_book (b : Book) : Json :=
  Json.obj
    [("title", Json.str b.title),
     ("author", b.author.encode),
     ("summary", encodeOptStr b.summary)]

/-- `POST /books/` (`status_code=201`): the body is required and validated
against `Book`; success responds with status 201. -/
def create_book_endpoint : Option Json → HttpResult
  | none => HttpResult.validationFailure ["book: Field required"]
  | some j =>
    match decodeBook j with
    | Except.error e => HttpResult.validationFailure [e]
    | Except.ok b => HttpResult.response 201 (create_book b)

theorem decodeItem_encode (it : Item) : decodeItem it.encode = Except.ok it := by
  obtain ⟨n, d, p, t⟩ := it
  cases d <;> cases t <;> rfl

theorem decodeListItems_map_encode (l : List Item) :
    decodeListItems (l.map Item.encode) = Except.ok l := by
  induction l with
  | nil => rfl
  | cons it rest ih =>
    simp [decodeListItems, decodeItem_encode, ih]

theorem decodeOffer_encode (o : Offer) : decodeOffer o.encode = Except.ok o := by
  obtain ⟨n, disc, items⟩ := o
  have h : decodeOffer (Offer.encode ⟨n, disc, items⟩) =
      Except.bind (decodeListItems (items.map Item.encode))
        (fun its => Except.ok { name := n, discount := disc, items := its }) := rfl
  rw [h, decodeListItems_map_encode]
  rfl

theorem decodeUser_encode (u : User) : decodeUser u.encode = Except.ok u := by
  obtain ⟨un, em, fn⟩ := u
  cases fn <;> rfl

theorem decodeBook_encode (b : Book) : decodeBook b.encode = Except.ok b := by
  obtain ⟨t, ⟨an, aa⟩, s⟩ := b
  cases s <;> rfl

/-- C1: the claim fails on the code. In `update_item` the body parameter is
declared `item: Item = None`, so a PUT with an in-range `item_id` and no
request body passes validation, the handler body runs with `item = None`,
and `item.model_dump()` raises `AttributeError` (a 500 server error) — not a
structured 4xx validation failure produced before the handler. This theorem
evaluates the endpoint at the failing input `PUT /items/7` with no body. -/
theorem update_item_missing_body_crash :
    update_item_endpoint 7 none none =
      HttpResult.unhandledError "AttributeError: NoneType object has no attribute model_dump" :=
  rfl

/-- C2 counterexample: a POST /users/ body supplying `username` and `email`
but omitting `full_name` is rejected at decode time (`full_name` is
annotated `str | None` with no default, hence required), contradicting the
claim that such a request is accepted with `full_name` null. -/
theorem users_missing_full_name_rejected :
    create_user_endpoint (some (Json.obj
      [("username", Json.str "alice"), ("email", Json.str "alice@example.com")])) =
      HttpResult.validationFailure ["full_name: Field required"] :=
  rfl

/-- C2 amended: `full_name` is required-but-nullable. For every `username`
and `email`, a body omitting `full_name` is rejected with a validation
failure, while a body supplying `full_name` as null is accepted and the
response carries `full_name` as null. -/
theorem users_full_name_required_nullable (username email : String) :
    create_user_endpoint (some (Json.obj
      [("username", Json.str username), ("email", Json.str email)])) =
      HttpResult.validationFailure ["full_name: Field required"] ∧
    create_user_endpoint (some (Json.obj
      [("username", Json.str username), ("email", Json.str email),
       ("full_name", Json.null)])) =
      HttpResult.response 200 (Json.obj
        [("username", Json.str username), ("email", Json.str email),
         ("full_name", Json.null)]) :=
  ⟨rfl, rfl⟩

/-- C3 counterexample: the response of POST /offers/ carries the submitted
offer's name under the key `offer_name`, and has no `name` field — the
claim, which requires a field named `name`, fails at this concrete offer. -/
theorem offers_response_uses_offer_name_key :
    create_offer_endpoint (some (Json.obj
      [("name", Json.str "Sale"), ("discount", Json.num 5), ("items", Json.arr [])])) =
      HttpResult.response 200 (Json.obj
        [("offer_name", Json.str "Sale"), ("discount", Json.num 5),
         ("items", Json.arr [])]) ∧
    (Json.obj [("offer_name", Json.str "Sale"), ("discount", Json.num 5),
      ("items", Json.arr [])]).lookup "name" = none ∧
    (Json.obj [("offer_name", Json.str "Sale"), ("discount", Json.num 5),
      ("items", Json.arr [])]).lookup "offer_name" = some (Json.str "Sale") :=
  ⟨rfl, rfl, rfl⟩

/-- C3 amended: for every valid Offer body, POST /offers/ returns a record
with fields `offer_name`, `discount` and `items` equal to the submitted
offer's name, discount and items. -/
theorem offers_echo_under_offer_name (o : Offer) :
    create_offer_endpoint (some o.encode) =
      HttpResult.response 200 (Json.obj
        [("offer_name", Json.str o.name),
         ("discount", Json.num o.discount),
         ("items", Json.arr (o.items.map Item.encode))]) := by
  simp [create_offer_endpoint, decodeOffer_encode, create_offer]

/-- C7: PUT /items/7 with body name "Pen", price 1.5 and no `q` returns
exactly the merged record with `description` and `tax` null, and the
response has no `q` key. -/
theorem put_item_seven_exact_response :
    update_item_endpoint 7
        (some (Json.obj [("name", Json.str "Pen"), ("price", Json.num (3 / 2))])) none =
      HttpResult.response 200 (Json.obj
        [("item_id", Json.int 7), ("name", Json.str "Pen"), ("description", Json.null),
         ("price", Json.num (3 / 2)), ("tax", Json.null)]) ∧
    (Json.obj
      [("item_id", Json.int 7), ("name", Json.str "Pen"), ("description", Json.null),
       ("price", Json.num (3 / 2)), ("tax", Json.null)]).lookup "q" = none :=
  ⟨rfl, rfl⟩

/-- C8: for every valid Book body, POST /books/ responds with status 201 and
a record echoing the submitted book's title, author and summary. -/
theorem create_book_status_201_echo (b : Book) :
    create_book_endpoint (some b.encode) =
      HttpResult.response 201 (Json.obj
        [("title", Json.str b.title),
         ("author", b.author.encode),
         ("summary", encodeOptStr b.summary)]) := by
  simp [create_book_endpoint, decodeBook_encode, create_book]

/-- C9: GET /books/ takes no input and always returns exactly the same two
Book records, in the same fixed order. -/
theorem get_books_two_fixed :
    get_books_endpoint = HttpResult.response 200 (Json.arr
      [Json.obj [("title", Json.str "Book 1"),
                 ("author", Json.obj [("name", Json.str "Author 1"), ("age", Json.int 45)]),
                 ("summary", Json.str "A great book about...")],
       Json.obj [("title", Json.str "Book 2"),
                 ("author", Json.obj [("name", Json.str "Author 2"), ("age", Json.int 38)]),
                 ("summary", Json.str "An interesting journey of...")]]) ∧
    get_books.length = 2 :=
  ⟨rfl, rfl⟩

/-- C10: encoding then decoding any Item, Offer, User or Book through its
declared schema yields the original record field for field; optional absent
fields are serialized as null and decode back to `none`. -/
theorem schema_roundtrip :
    (∀ it : Item, decodeItem it.encode = Except.ok it) ∧
    (∀ o : Offer, decodeOffer o.encode = Except.ok o) ∧
    (∀ u : User, decodeUser u.encode = Except.ok u) ∧
    (∀ b : Book, decodeBook b.encode = Except.ok b) :=
  ⟨decodeItem_encode, decodeOffer_encode, decodeUser_encode, decodeBook_encode⟩

/-- C4: for POST /items/form_and_file/ with all form fields decoded and a
file part present, a negative price gives a 400 with the negative-price
message regardless of the file; otherwise an empty (falsy) filename gives a
400 with the no-file message; otherwise a 200 echoing the fields, the
filename and the fixed message. -/
theorem form_and_file_cases (name : String) (description : Option String)
    (price : Rat) (tax : Option Rat) (file : UploadFile) :
    (price < 0 →
      create_item_with_form_and_file name description price tax file =
        HttpResult.httpException 400 "Price cannot be negative") ∧
    (0 ≤ price → pyTruthy file.filename = false →
      create_item_with_form_and_file name description price tax file =
        HttpResult.httpException 400 "No file uploaded") ∧
    (0 ≤ price → ∀ fn : String, file.filename = some fn → 0 < fn.length →
      create_item_with_form_and_file name description price tax file =
        HttpResult.response 200 (Json.obj
          [("name", Json.str name),
           ("description", encodeOptStr description),
           ("price", Json.num price),
           ("tax", encodeOptNum tax),
           ("filename", Json.str fn),
           ("message", Json.str "This is an item created using form data and a file.")])) := by
  refine ⟨?_, ?_, ?_⟩
  · intro h
    simp [create_item_with_form_and_file, h]
  · intro h0 hf
    have hnot : ¬ price < 0 := not_lt.mpr h0
    simp [create_item_with_form_and_file, hnot, hf]
  · intro h0 fn hfn hlen
    have hnot : ¬ price < 0 := not_lt.mpr h0
    have htr : pyTruthy (some fn) = true := by
      simp [pyTruthy]
      omega
    simp [create_item_with_form_and_file, hnot, hfn, htr]

/-- Witness for C4: the three cases at concrete form inputs. -/
theorem form_and_file_cases_witness :
    create_item_with_form_and_file "pen" none (-1) none ⟨some "notes.txt"⟩ =
      HttpResult.httpException 400 "Price cannot be negative" ∧
    create_item_with_form_and_file "pen" none 5 none ⟨some ""⟩ =
      HttpResult.httpException 400 "No file uploaded" ∧
    create_item_with_form_and_file "pen" none 5 none ⟨some "notes.txt"⟩ =
      HttpResult.response 200 (Json.obj
        [("name", Json.str "pen"), ("description", Json.null),
         ("price", Json.num 5), ("tax", Json.null),
         ("filename", Json.str "notes.txt"),
         ("message", Json.str "This is an item created using form data and a file.")]) :=
  ⟨(form_and_file_cases "pen" none (-1) none ⟨some "notes.txt"⟩).1 (by norm_num),
   (form_and_file_cases "pen" none 5 none ⟨some ""⟩).2.1 (by norm_num) rfl,
   (form_and_file_cases "pen" none 5 none ⟨some "notes.txt"⟩).2.2 (by norm_num)
     "notes.txt" rfl (by decide)⟩

/-- C5: for every integer item_id outside [1, 1000], both GET and PUT on
/items/ return a validation failure naming item_id, never handler output. -/
theorem item_id_out_of_range_rejected (item_id : Int) (q : Option String)
    (sort_order : Option String) (body : Option Json)
    (h : item_id < 1 ∨ 1000 < item_id) :
    (∃ errs, read_item_endpoint item_id q sort_order =
      HttpResult.validationFailure errs ∧ "item_id" ∈ errs) ∧
    (∃ errs, update_item_endpoint item_id body q =
      HttpResult.validationFailure errs ∧ "item_id" ∈ errs) := by
  have hv : validItemId item_id = false := by
    unfold validItemId
    rcases h with h | h
    · have hn : ¬ (1 ≤ item_id) := by omega
      simp [hn]
    · have hn : ¬ (item_id ≤ 1000) := by omega
      simp [hn]
  constructor
  · have hm : "item_id" ∈ read_item_errors item_id q sort_order := by
      simp [read_item_errors, hv]
    have hne : read_item_errors item_id q sort_order ≠ [] := List.ne_nil_of_mem hm
    exact ⟨read_item_errors item_id q sort_order, by simp [read_item_endpoint, hne], hm⟩
  · have hm : "item_id" ∈ update_item_errors item_id body q := by
      simp [update_item_errors, hv]
    have hne : update_item_errors item_id body q ≠ [] := List.ne_nil_of_mem hm
    exact ⟨update_item_errors item_id body q, by simp [update_item_endpoint, hne], hm⟩

/-- Witness for C5 at item_id = 0. -/
theorem item_id_out_of_range_rejected_witness :
    (∃ errs, read_item_endpoint 0 none none =
      HttpResult.validationFailure errs ∧ "item_id" ∈ errs) ∧
    (∃ errs, update_item_endpoint 0 none none =
      HttpResult.validationFailure errs ∧ "item_id" ∈ errs) :=
  item_id_out_of_range_rejected 0 none none none (Or.inl (by norm_num))

/-- C6: a provided q of length below 3 or above 50 makes GET /items/ fail
validation naming q; a q of length in [3, 50] (with the other parameters
valid) yields the handler response whose description contains q verbatim as
a substring. -/
theorem q_length_validation_and_echo (item_id : Int) (q : String)
    (sort_order : Option String) :
    ((q.length < 3 ∨ 50 < q.length) →
      ∃ errs, read_item_endpoint item_id (some q) sort_order =
        HttpResult.validationFailure errs ∧ "q" ∈ errs) ∧
    (3 ≤ q.length → q.length ≤ 50 → 1 ≤ item_id → item_id ≤ 1000 →
      validSortOrder (sort_order.getD "asc") = true →
      read_item_endpoint item_id (some q) sort_order =
        HttpResult.response 200 (Json.obj
          [("item_id", Json.int item_id),
           ("description",
             Json.str ("This is a sample item that matches the query " ++ q)),
           ("sort_order", Json.str (sort_order.getD "asc"))]) ∧
      ∃ a b, "This is a sample item that matches the query " ++ q = a ++ q ++ b) := by
  constructor
  · intro hq
    have hvq : validQ (some q) = false := by
      unfold validQ
      rcases hq with h | h
      · have hn : ¬ (3 ≤ q.length) := by omega
        simp [hn]
      · have hn : ¬ (q.length ≤ 50) := by omega
        simp [hn]
    have hm : "q" ∈ read_item_errors item_id (some q) sort_order := by
      simp [read_item_errors, hvq]
    have hne : read_item_errors item_id (some q) sort_order ≠ [] := List.ne_nil_of_mem hm
    exact ⟨read_item_errors item_id (some q) sort_order,
      by simp [read_item_endpoint, hne], hm⟩
  · intro h3 h50 hge hle hso
    have hvq : validQ (some q) = true := by
      unfold validQ
      simp
      omega
    have hvi : validItemId item_id = true := by
      unfold validItemId
      simp
      omega
    have herrs : read_item_errors item_id (some q) sort_order = [] := by
      simp [read_item_errors, hvq, hvi, hso]
    have htr : pyTruthy (some q) = true := by
      simp [pyTruthy]
      omega
    refine ⟨?_, "This is a sample item that matches the query ", "", ?_⟩
    · simp [read_item_endpoint, herrs, read_item, htr]
    · simp [String.append_empty]

/-- Witness for C6: a short q is rejected; q = "abc" at item_id 5 is echoed
in the description. -/
theorem q_length_validation_and_echo_witness :
    (∃ errs, read_item_endpoint 5 (some "ab") none =
      HttpResult.validationFailure errs ∧ "q" ∈ errs) ∧
    (read_item_endpoint 5 (some "abc") none =
      HttpResult.response 200 (Json.obj
        [("item_id", Json.int 5),
         ("description",
           Json.str ("This is a sample item that matches the query " ++ "abc")),
         ("sort_order", Json.str "asc")]) ∧
      ∃ a b, "This is a sample item that matches the query " ++ "abc" = a ++ "abc" ++ b) :=
  ⟨(q_length_validation_and_echo 5 "ab" none).1 (Or.inl (by decide)),
   (q_length_validation_and_echo 5 "abc" none).2 (by decide) (by decide)
     (by norm_num) (by norm_num) rfl⟩
